import Mathlib

/-!
Verification development for the `AnswerEvaluationAgent` gateway of the
AI-Interview-Coach repository (`Agents/agent.py`).

The Python source is shallowly embedded as executable Lean definitions:

* Python `str` values are modelled as `List Char` (a Python string is a
  sequence of Unicode code points); `String`-typed wrappers convert via
  `String.data`.
* `json.loads` is modelled by `jsonLoads`, a fuel-indexed recursive-descent
  parser following CPython's `json` scanner grammar (strict mode): the
  whitespace set, the number regex, string escapes, Python's `NaN` /
  `Infinity` / `-Infinity` extensions, last-wins duplicate object keys.
  Two deliberate abstractions, neither reachable by any theorem below:
  a lone `\uXXXX` surrogate escape decodes to U+FFFD (Lean `Char` cannot
  hold a surrogate code point), and CPython's recursion limit is not
  modelled (the fuel is proportional to the input length, which bounds any
  nesting depth, so the fuel never runs out).
* `json.dumps` is modelled by `pyJsonDumps` (default separators,
  `ensure_ascii=True`); non-integer numbers are printed by a best-effort
  decimal expansion standing in for CPython float `repr` (only integer
  numbers are ever serialised by the theorems below).
* The external `model.generate_content` call is modelled by a behaviour
  `Nat → Outcome`: the outcome (returned text, or raised exception message)
  of each successive invocation.  The `self.model = None` case (failed
  initialisation) corresponds to the behaviour raising
  `AttributeError: 'NoneType' object has no attribute 'generate_content'`
  at every attempt, a special case of an all-error behaviour.
* `random.uniform(0, 1)` is modelled by a jitter oracle `Nat → ℚ` giving
  the value drawn before each attempt, constrained to `[0, 1)` in theorem
  hypotheses.
* `time.sleep` and the service invocations are recorded in an event trace
  (`Ev.sleep`, `Ev.call`) returned next to the result, so temporal claims
  about delays and invocation counts are statements about the trace.
-/

/-- JSON values as produced by Python's `json.loads`: objects are
key-ordered association lists as in a Python `dict`.  `nan`, `inf`, `ninf`
model the `NaN` / `Infinity` / `-Infinity` extensions CPython accepts by
default.  A number is kept exactly as the decimal value
`mant * 10 ^ exp10`; for an integer literal `exp10 = 0` and `mant` is the
Python `int`.  (Python's int/float type distinction is not carried: no
theorem below compares an integer-literal parse with a float-literal
parse.) -/
inductive Json where
  | null : Json
  | bool (b : Bool) : Json
  | num (mant : Int) (exp10 : Int) : Json
  | nan : Json
  | inf : Json
  | ninf : Json
  | str (s : String) : Json
  | arr (elems : List Json) : Json
  | obj (fields : List (String × Json)) : Json

/-- Python `a in b` substring/containment test on strings modelled as
character lists: does `needle` occur contiguously inside `hay`? -/
def listStartsWith : List Char → List Char → Bool
  | _, [] => true
  | [], _ :: _ => false
  | c :: cs, p :: ps => c == p && listStartsWith cs ps

/-- Python `needle in hay` for strings (contiguous substring test). -/
def pyContains : List Char → List Char → Bool
  | [], needle => needle.isEmpty
  | hay@(_ :: tl), needle => listStartsWith hay needle || pyContains tl needle

/-- ASCII-faithful model of Python `str.lower` (the only strings lowered by
the source are ASCII). -/
def pyLowerL (l : List Char) : List Char := l.map Char.toLower

/-- Whitespace stripped by Python `str.strip()` (the common code points;
exotic Unicode spaces are not produced by the source). -/
def pyIsSpace (c : Char) : Bool :=
  c == ' ' || c == '\t' || c == '\n' || c == '\x0b' || c == '\x0c' || c == '\r'

/-- Python `str.strip()` with no argument. -/
def pyStrip (l : List Char) : List Char :=
  (((l.dropWhile pyIsSpace).reverse).dropWhile pyIsSpace).reverse

/-- Python `str.split('\n')` (the result is never empty: splitting the
empty string gives one empty part). -/
def splitNl : List Char → List (List Char)
  | [] => [[]]
  | c :: t =>
    let rest := splitNl t
    if c = '\n' then [] :: rest
    else (c :: rest.headD []) :: rest.tail

/-- Python `'\n'.join(parts)`. -/
def joinNl : List (List Char) → List Char
  | [] => []
  | [l] => l
  | l :: ls => l ++ '\n' :: joinNl ls

/-- JSON scanner whitespace (`[ \t\n\r]`, as in CPython's `json.decoder`). -/
def isJsonWs (c : Char) : Bool :=
  c == ' ' || c == '\t' || c == '\n' || c == '\r'

/-- Skip JSON scanner whitespace. -/
def skipWs (s : List Char) : List Char := s.dropWhile isJsonWs

/-- Decimal digit test. -/
def isDigitC (c : Char) : Bool := '0' ≤ c && c ≤ '9'

/-- Value of a decimal digit. -/
def digitVal (c : Char) : Nat := c.toNat - '0'.toNat

/-- Value of a hexadecimal digit, if any. -/
def hexVal (c : Char) : Option Nat :=
  if '0' ≤ c ∧ c ≤ '9' then some (c.toNat - '0'.toNat)
  else if 'a' ≤ c ∧ c ≤ 'f' then some (c.toNat - 'a'.toNat + 10)
  else if 'A' ≤ c ∧ c ≤ 'F' then some (c.toNat - 'A'.toNat + 10)
  else none

/-- Digits of a character list prefix: value and remaining input. -/
def takeDigits (s : List Char) : Nat × Nat × List Char :=
  match s with
  | [] => (0, 0, [])
  | c :: t =>
    if isDigitC c then
      let (n, k, rest) := takeDigits t
      (digitVal c * 10 ^ k + n, k + 1, rest)
    else (0, 0, s)

/-- Four hex digits, as used by a `\uXXXX` escape. -/
def hex4 (s : List Char) : Option (Nat × List Char) :=
  match s with
  | a :: b :: c :: d :: rest =>
    match hexVal a, hexVal b, hexVal c, hexVal d with
    | some x, some y, some z, some w => some (((x * 16 + y) * 16 + z) * 16 + w, rest)
    | _, _, _, _ => none
  | _ => none

/-- Body of a JSON string (after the opening quote), following CPython's
strict `py_scanstring`: escapes, `\uXXXX` (surrogate pairs combined; a lone
surrogate is kept by CPython but mapped to U+FFFD here, see the module
comment), and a hard error on unescaped control characters. -/
def parseStringRest : Nat → List Char → List Char → Except String (List Char × List Char)
  | 0, _, _ => Except.error "recursion limit"
  | _ + 1, _, [] => Except.error "Unterminated string"
  | f + 1, acc, c :: rest =>
    if c = '"' then Except.ok (acc.reverse, rest)
    else if c = '\\' then
      match rest with
      | [] => Except.error "Unterminated string"
      | e :: rest2 =>
        if e = '"' then parseStringRest f ('"' :: acc) rest2
        else if e = '\\' then parseStringRest f ('\\' :: acc) rest2
        else if e = '/' then parseStringRest f ('/' :: acc) rest2
        else if e = 'b' then parseStringRest f ('\x08' :: acc) rest2
        else if e = 'f' then parseStringRest f ('\x0c' :: acc) rest2
        else if e = 'n' then parseStringRest f ('\n' :: acc) rest2
        else if e = 'r' then parseStringRest f ('\r' :: acc) rest2
        else if e = 't' then parseStringRest f ('\t' :: acc) rest2
        else if e = 'u' then
          match hex4 rest2 with
          | none => Except.error "Invalid \\uXXXX escape"
          | some (n, rest3) =>
            if 0xD800 ≤ n ∧ n ≤ 0xDBFF then
              match rest3 with
              | '\\' :: 'u' :: rest4 =>
                match hex4 rest4 with
                | some (m, rest5) =>
                  if 0xDC00 ≤ m ∧ m ≤ 0xDFFF then
                    parseStringRest f
                      (Char.ofNat (0x10000 + (n - 0xD800) * 0x400 + (m - 0xDC00)) :: acc) rest5
                  else parseStringRest f ('\ufffd' :: acc) rest3
                | none => parseStringRest f ('\ufffd' :: acc) rest3
              | _ => parseStringRest f ('\ufffd' :: acc) rest3
            else if 0xDC00 ≤ n ∧ n ≤ 0xDFFF then parseStringRest f ('\ufffd' :: acc) rest3
            else parseStringRest f (Char.ofNat n :: acc) rest3
        else Except.error "Invalid escape"
    else if c.toNat < 0x20 then Except.error "Invalid control character"
    else parseStringRest f (c :: acc) rest

/-- CPython's `NUMBER_RE` regex `(-?(?:0|[1-9]\d*))(\.\d+)?([eE][-+]?\d+)?`
matched at the head of the input: the numeric value (as the exact decimal
`mant * 10 ^ exp10`) and the remaining input, or `none` when the regex
does not match at this position. -/
def parseNumber (s : List Char) : Option (Int × Int × List Char) :=
  let (neg, s1) :=
    match s with
    | '-' :: t => (true, t)
    | _ => (false, s)
  match s1 with
  | [] => none
  | c :: t =>
    if ¬ isDigitC c then none
    else
      let (ipart, rest1) :=
        if c = '0' then ((0 : Nat), t)
        else
          let (n, k, r) := takeDigits t
          (digitVal c * 10 ^ k + n, r)
      let (fracNum, fracLen, rest2) :=
        match rest1 with
        | '.' :: d :: t2 =>
          if isDigitC d then
            let (n, k, r) := takeDigits t2
            (digitVal d * 10 ^ k + n, k + 1, r)
          else ((0 : Nat), (0 : Nat), rest1)
        | _ => ((0 : Nat), (0 : Nat), rest1)
      let (expVal, rest3) :=
        match rest2 with
        | e :: t3 =>
          if e = 'e' ∨ e = 'E' then
            match t3 with
            | '+' :: d :: t4 =>
              if isDigitC d then
                let (n, k, r) := takeDigits t4
                ((digitVal d * 10 ^ k + n : Int), r)
              else ((0 : Int), rest2)
            | '-' :: d :: t4 =>
              if isDigitC d then
                let (n, k, r) := takeDigits t4
                ((-(digitVal d * 10 ^ k + n : Int) : Int), r)
              else ((0 : Int), rest2)
            | d :: t4 =>
              if isDigitC d then
                let (n, k, r) := takeDigits t4
                ((digitVal d * 10 ^ k + n : Int), r)
              else ((0 : Int), rest2)
            | [] => ((0 : Int), rest2)
          else ((0 : Int), rest2)
        | [] => ((0 : Int), rest2)
      let mantAbs : Nat := ipart * 10 ^ fracLen + fracNum
      let mant : Int := if neg then -(mantAbs : Int) else (mantAbs : Int)
      some (mant, expVal - (fracLen : Int), rest3)

/-- Insert a parsed object member as a Python `dict` assignment does:
replace the value of an existing key in place, otherwise append. -/
def objInsert (kvs : List (String × Json)) (k : String) (v : Json) :
    List (String × Json) :=
  match kvs with
  | [] => [(k, v)]
  | (k0, v0) :: rest =>
    if k0 = k then (k0, v) :: rest else (k0, v0) :: objInsert rest k v

mutual

/-- Parse one JSON value at the head of the input (no leading whitespace),
following CPython's scanner dispatch. -/
def parseValue : Nat → List Char → Except String (Json × List Char)
  | 0, _ => Except.error "recursion limit"
  | _ + 1, [] => Except.error "Expecting value"
  | f + 1, s@(c :: rest) =>
    if c = '"' then
      match parseStringRest f [] rest with
      | Except.ok (cs, rest2) => Except.ok (Json.str (String.mk cs), rest2)
      | Except.error e => Except.error e
    else if c = '{' then parseObjectBody f rest
    else if c = '[' then parseArrayBody f rest
    else if listStartsWith s ("null".data) then Except.ok (Json.null, s.drop 4)
    else if listStartsWith s ("true".data) then Except.ok (Json.bool true, s.drop 4)
    else if listStartsWith s ("false".data) then Except.ok (Json.bool false, s.drop 5)
    else if listStartsWith s ("NaN".data) then Except.ok (Json.nan, s.drop 3)
    else if listStartsWith s ("Infinity".data) then Except.ok (Json.inf, s.drop 8)
    else if listStartsWith s ("-Infinity".data) then Except.ok (Json.ninf, s.drop 9)
    else
      match parseNumber s with
      | some (m, e, rest2) => Except.ok (Json.num m e, rest2)
      | none => Except.error "Expecting value"

/-- Parse an object body, positioned just after the opening brace. -/
def parseObjectBody : Nat → List Char → Except String (Json × List Char)
  | 0, _ => Except.error "recursion limit"
  | f + 1, s =>
    match skipWs s with
    | '}' :: rest => Except.ok (Json.obj [], rest)
    | '"' :: rest =>
      match parseStringRest f [] rest with
      | Except.ok (kcs, rest2) => parseMemberValue f [] (String.mk kcs) rest2
      | Except.error e => Except.error e
    | _ => Except.error "Expecting property name enclosed in double quotes"

/-- Parse `: value` after an object key, then the remaining members. -/
def parseMemberValue : Nat → List (String × Json) → String → List Char →
    Except String (Json × List Char)
  | 0, _, _, _ => Except.error "recursion limit"
  | f + 1, acc, k, s =>
    match skipWs s with
    | ':' :: rest =>
      match parseValue f (skipWs rest) with
      | Except.ok (v, rest2) => parseMembersRest f (objInsert acc k v) rest2
      | Except.error e => Except.error e
    | _ => Except.error "Expecting ':' delimiter"

/-- After a parsed member: either `, "key" : value ...` or the closing
brace. -/
def parseMembersRest : Nat → List (String × Json) → List Char →
    Except String (Json × List Char)
  | 0, _, _ => Except.error "recursion limit"
  | f + 1, acc, s =>
    match skipWs s with
    | '}' :: rest => Except.ok (Json.obj acc, rest)
    | ',' :: rest =>
      match skipWs rest with
      | '"' :: rest2 =>
        match parseStringRest f [] rest2 with
        | Except.ok (kcs, rest3) => parseMemberValue f acc (String.mk kcs) rest3
        | Except.error e => Except.error e
      | _ => Except.error "Expecting property name enclosed in double quotes"
    | _ => Except.error "Expecting ',' delimiter"

/-- Parse an array body, positioned just after the opening bracket. -/
def parseArrayBody : Nat → List Char → Except String (Json × List Char)
  | 0, _ => Except.error "recursion limit"
  | f + 1, s =>
    match skipWs s with
    | ']' :: rest => Except.ok (Json.arr [], rest)
    | s2 =>
      match parseValue f s2 with
      | Except.ok (v, rest2) => parseArrayRest f [v] rest2
      | Except.error e => Except.error e

/-- After a parsed array element: either `, value ...` or the closing
bracket. -/
def parseArrayRest : Nat → List Json → List Char →
    Except String (Json × List Char)
  | 0, _, _ => Except.error "recursion limit"
  | f + 1, acc, s =>
    match skipWs s with
    | ']' :: rest => Except.ok (Json.arr acc.reverse, rest)
    | ',' :: rest =>
      match parseValue f (skipWs rest) with
      | Except.ok (v, rest2) => parseArrayRest f (v :: acc) rest2
      | Except.error e => Except.error e
    | _ => Except.error "Expecting ',' delimiter"

end

/-- Model of Python `json.loads`: skip leading whitespace, parse one value,
require only trailing whitespace.  The fuel `4 * length + 16` dominates any
possible recursion depth (every recursive step consumes input). -/
def jsonLoads (s : List Char) : Except String Json :=
  match parseValue (4 * s.length + 16) (skipWs s) with
  | Except.ok (v, rest) =>
    if (skipWs rest).isEmpty then Except.ok v else Except.error "Extra data"
  | Except.error e => Except.error e

/-- Digits of a natural number (base 10). -/
def natChars (n : Nat) : List Char := Nat.toDigits 10 n

/-- Decimal rendering of an integer, as Python prints an `int`. -/
def intChars (i : Int) : List Char :=
  if i < 0 then '-' :: natChars i.natAbs else natChars i.natAbs

/-- Lowercase hexadecimal digit. -/
def hexChar (n : Nat) : Char :=
  (("0123456789abcdef".data).getD n '0')

/-- Four lowercase hex digits of a code unit, as in a `\uXXXX` escape. -/
def hex4Chars (n : Nat) : List Char :=
  [hexChar (n / 4096 % 16), hexChar (n / 256 % 16), hexChar (n / 16 % 16), hexChar (n % 16)]

/-- Escape one character as CPython's `json.dumps` does with
`ensure_ascii=True`: everything outside printable ASCII becomes `\uXXXX`
(a surrogate pair for non-BMP code points). -/
def dumpsStrChar (c : Char) : List Char :=
  if c = '"' then ['\\', '"']
  else if c = '\\' then ['\\', '\\']
  else if c = '\x08' then ['\\', 'b']
  else if c = '\x0c' then ['\\', 'f']
  else if c = '\n' then ['\\', 'n']
  else if c = '\r' then ['\\', 'r']
  else if c = '\t' then ['\\', 't']
  else if 0x20 ≤ c.toNat ∧ c.toNat ≤ 0x7e then [c]
  else if c.toNat ≤ 0xffff then '\\' :: 'u' :: hex4Chars c.toNat
  else
    let v := c.toNat - 0x10000
    '\\' :: 'u' :: hex4Chars (0xd800 + v / 0x400) ++ '\\' :: 'u' :: hex4Chars (0xdc00 + v % 0x400)

/-- A JSON string literal as serialised by `json.dumps`. -/
def dumpsStr (s : String) : List Char :=
  '"' :: (s.data.map dumpsStrChar).flatten ++ ['"']

/-- Decimal rendering of a JSON number `mant * 10 ^ exp10`.  Integer
values (`exp10 ≥ 0`) are printed exactly as Python prints an `int`;
fractional values get a plain decimal expansion with trailing zeros
trimmed, a best-effort stand-in for CPython float `repr` (no theorem
serialises a non-integer, see the module comment). -/
def dumpsNum (mant exp10 : Int) : List Char :=
  if 0 ≤ exp10 then intChars (mant * (10 : Int) ^ exp10.toNat)
  else
    let d := (-exp10).toNat
    let sign : List Char := if mant < 0 then ['-'] else []
    let a := mant.natAbs
    let fracDigits := (natChars (10 ^ d + a % 10 ^ d)).drop 1
    let trimmed := (fracDigits.reverse.dropWhile (fun c => c == '0')).reverse
    sign ++ natChars (a / 10 ^ d) ++ '.' ::
      (if trimmed.isEmpty then ['0'] else trimmed)

mutual

/-- Model of Python `json.dumps(value)` with its default separators
`(', ', ': ')` and `ensure_ascii=True`. -/
def pyJsonDumpsL : Json → List Char
  | Json.null => "null".data
  | Json.bool true => "true".data
  | Json.bool false => "false".data
  | Json.num m e => dumpsNum m e
  | Json.nan => "NaN".data
  | Json.inf => "Infinity".data
  | Json.ninf => "-Infinity".data
  | Json.str s => dumpsStr s
  | Json.arr xs => '[' :: dumpsArrElems xs ++ [']']
  | Json.obj kvs => '{' :: dumpsObjFields kvs ++ ['}']

/-- Comma-separated array elements for `pyJsonDumpsL`. -/
def dumpsArrElems : List Json → List Char
  | [] => []
  | [x] => pyJsonDumpsL x
  | x :: y :: xs => pyJsonDumpsL x ++ ',' :: ' ' :: dumpsArrElems (y :: xs)

/-- Comma-separated object members for `pyJsonDumpsL`. -/
def dumpsObjFields : List (String × Json) → List Char
  | [] => []
  | [(k, v)] => dumpsStr k ++ ':' :: ' ' :: pyJsonDumpsL v
  | (k, v) :: m :: kvs =>
    dumpsStr k ++ ':' :: ' ' :: pyJsonDumpsL v ++ ',' :: ' ' :: dumpsObjFields (m :: kvs)

end

/-- Python `json.dumps(value)` producing a `String`. -/
def pyJsonDumps (v : Json) : String := String.mk (pyJsonDumpsL v)

/-- Newline followed by the indentation of the given nesting level, for
`json.dumps(value, indent=2)`. -/
def nlIndent (lvl : Nat) : List Char := '\n' :: List.replicate (2 * lvl) ' '

mutual

/-- Model of Python `json.dumps(value, indent=2)` (used only to render the
candidate data inside the question-generation prompt). -/
def dumpsIndJson (lvl : Nat) : Json → List Char
  | Json.arr [] => "[]".data
  | Json.arr (x :: xs) =>
    '[' :: nlIndent (lvl + 1) ++ dumpsIndArr (lvl + 1) x xs ++ nlIndent lvl ++ [']']
  | Json.obj [] => "\x7b\x7d".data
  | Json.obj (kv :: kvs) =>
    '{' :: nlIndent (lvl + 1) ++ dumpsIndObj (lvl + 1) kv kvs ++ nlIndent lvl ++ ['}']
  | v => pyJsonDumpsL v
termination_by v => sizeOf v
decreasing_by all_goals (simp_wf <;> omega)

/-- Indented array elements for `dumpsIndJson`. -/
def dumpsIndArr (lvl : Nat) : Json → List Json → List Char
  | x, [] => dumpsIndJson lvl x
  | x, y :: xs => dumpsIndJson lvl x ++ ',' :: nlIndent lvl ++ dumpsIndArr lvl y xs
termination_by x xs => 1 + sizeOf x + sizeOf xs
decreasing_by all_goals (simp_wf <;> omega)

/-- Indented object members for `dumpsIndJson`. -/
def dumpsIndObj (lvl : Nat) : String × Json → List (String × Json) → List Char
  | (k, v), [] => dumpsStr k ++ ':' :: ' ' :: dumpsIndJson lvl v
  | (k, v), m :: kvs =>
    dumpsStr k ++ ':' :: ' ' :: dumpsIndJson lvl v ++ ',' :: nlIndent lvl ++ dumpsIndObj lvl m kvs
termination_by kv kvs => 1 + sizeOf kv + sizeOf kvs
decreasing_by all_goals (simp_wf <;> omega)

end

/-- Lines-based markdown fence stripping from `_extract_json_safe`: a line
whose stripped form starts with three backticks toggles the `in_json` flag
and is dropped; other lines are kept only while the flag is set. -/
def stripLinesGo : Bool → List (List Char) → List (List Char)
  | _, [] => []
  | inJson, line :: rest =>
    if listStartsWith (pyStrip line) ("```".data) then stripLinesGo (!inJson) rest
    else if inJson then line :: stripLinesGo inJson rest
    else stripLinesGo inJson rest

/-- First stage of `_extract_json_safe`: when the text starts with a fence
marker (and contains one), split into lines, keep only the fenced lines,
and re-join with newlines. -/
def fenceStage (l : List Char) : List Char :=
  if listStartsWith l ("```".data) && pyContains l ("```".data) then
    joinNl (stripLinesGo false (splitNl l))
  else l

/-- Index of the first character satisfying the predicate. -/
def firstIdx (p : Char → Bool) : List Char → Option Nat
  | [] => none
  | c :: t => if p c then some 0 else (firstIdx p t).map (· + 1)

/-- Python `str.find(c)`: first index of the character, `-1` if absent. -/
def pyFindChar (c : Char) (l : List Char) : Int :=
  match firstIdx (fun x => x == c) l with
  | some i => (i : Int)
  | none => -1

/-- Python `str.rfind(c)`: last index of the character, `-1` if absent. -/
def pyRFindChar (c : Char) (l : List Char) : Int :=
  match firstIdx (fun x => x == c) l.reverse with
  | some i => ((l.length - 1 - i : Nat) : Int)
  | none => -1

/-- Second stage of `_extract_json_safe`: slice from the first `｛` to one
past the last `｝` when that span is non-empty (`start_idx >= 0 and
end_idx > start_idx` in the source), otherwise leave the text unchanged. -/
def sliceStage (l : List Char) : List Char :=
  let s := pyFindChar '{' l
  let e := pyRFindChar '}' l + 1
  if 0 ≤ s ∧ s < e then (l.drop s.toNat).take (e - s).toNat else l

/-- The sentinel mapping returned by `_extract_json_safe` when
`json.loads` raises `JSONDecodeError`. -/
def invalidJsonSentinel : Json :=
  Json.obj [("error", Json.str "Invalid JSON response from API")]

/-- Model of `_extract_json_safe(response_text)` on character lists: strip
markdown fences, slice to the outermost brace span, and parse; a parse
failure yields the sentinel mapping.  The source's second handler (the
broad `except` returning `"Failed to process API response"`) is
unreachable once the argument is a string, which the typed embedding
guarantees, so it does not appear. -/
def extractJsonSafeL (l : List Char) : Json :=
  match jsonLoads (sliceStage (fenceStage l)) with
  | Except.ok v => v
  | Except.error _ => invalidJsonSentinel

/-- Wrapper applying `_extract_json_safe` to a `String`. -/
def extractJsonSafe (s : String) : Json := extractJsonSafeL s.data

/-- Python truthiness of a JSON value (`bool(v)` for the values
`json.loads` can produce). -/
def jsonTruthy : Json → Bool
  | Json.null => false
  | Json.bool b => b
  | Json.num m _ => decide (m ≠ 0)
  | Json.nan => true
  | Json.inf => true
  | Json.ninf => true
  | Json.str s => !s.isEmpty
  | Json.arr l => !l.isEmpty
  | Json.obj l => !l.isEmpty

/-- Python `dict.get(key)` on the association-list model (`None` ↦
`none`). -/
def jGet : List (String × Json) → String → Option Json
  | [], _ => none
  | (k, v) :: rest, key => if k = key then some v else jGet rest key

/-- Truthiness of a `dict.get` result: `None` is falsy. -/
def truthyOpt : Option Json → Bool
  | none => false
  | some v => jsonTruthy v

/-- Python `key in dict`. -/
def hasKey (kvs : List (String × Json)) (k : String) : Bool := (jGet kvs k).isSome

/-- The acceptance test every consumer-facing operation applies to the
extracted result before trusting it:
`isinstance(result, dict) and not result.get("error")`. -/
def acceptedResult : Json → Bool
  | Json.obj kvs => !truthyOpt (jGet kvs "error")
  | _ => false

/-- The outcome of one invocation of the underlying service
(`self.model.generate_content(prompt)`): a returned response text, or a
raised exception rendered as its message `str(e)`.  A missing model
(`self.model = None`) raises `AttributeError` at each attempt and is the
constant-error behaviour. -/
inductive Outcome where
  | ok (text : String) : Outcome
  | err (msg : String) : Outcome

/-- The rate-limit test of `_make_api_request_with_retry`:
`"429" in error_msg or "quota" in error_msg.lower()`. -/
def isRateLimitMsg (m : String) : Bool :=
  pyContains m.data ("429".data) || pyContains (pyLowerL m.data) ("quota".data)

/-- The `re.search(r'seconds: (\d+)', error_msg)` scan: the digits after
the first occurrence of `"seconds: "` that is followed by at least one
digit. -/
def findSecondsNum : List Char → Option Nat
  | [] => none
  | l@(_ :: t) =>
    if listStartsWith l ("seconds: ".data) then
      match l.drop 9 with
      | d :: _ =>
        if isDigitC d then
          let (n, _, _) := takeDigits (l.drop 9)
          some n
        else findSecondsNum t
      | [] => findSecondsNum t
    else findSecondsNum t

/-- The rate-limit cooldown chosen by `_make_api_request_with_retry`:
60 seconds by default, or the provider-hinted `seconds: N` value when the
message mentions `retry_delay`. -/
def retryDelayOf (m : String) : Nat :=
  if pyContains m.data ("retry_delay".data) then
    match findSecondsNum m.data with
    | some n => n
    | none => 60
  else 60

/-- The duck-typed response object: all the gateway reads from it is its
`text` attribute. -/
structure Response where
  text : String

/-- The synthesized payload of `_get_fallback_response` (its JSON text is
the fallback `Response.text`, whatever the `error_type` argument). -/
def fallbackResponsePayload : Json :=
  Json.obj
    [ ("overall_score", Json.num 70 0)
    , ("detailed_scores", Json.obj
        [ ("clarity", Json.num 14 0)
        , ("completeness", Json.num 14 0)
        , ("accuracy", Json.num 14 0)
        , ("relevance", Json.num 14 0)
        , ("communication", Json.num 14 0) ])
    , ("strengths", Json.arr [Json.str "Answer provided shows understanding"])
    , ("weaknesses", Json.arr [Json.str "Could be more detailed"])
    , ("improvement_suggestions", Json.arr
        [Json.str "Provide specific examples", Json.str "Elaborate on key points"])
    , ("detailed_feedback", Json.str "Unable to evaluate due to API issues. Please try again.")
    , ("overall_impression", Json.str "Moderate") ]

/-- Model of `_get_fallback_response(error_type)`: a duck-typed response whose text
is the JSON serialisation of the synthesized evaluation payload; the
`error_type` argument is ignored by the source body. -/
def getFallbackResponse (errorType : String) : Response :=
  { text := pyJsonDumps fallbackResponsePayload }

/-- Events observed while `_make_api_request_with_retry` runs: service
invocations (with their 0-based attempt index) and `time.sleep` calls
(with the slept duration in seconds). -/
inductive Ev where
  | call (i : Nat) : Ev
  | sleep (d : ℚ) : Ev

/-- The retry loop of `_make_api_request_with_retry`, unrolled over the
remaining iterations of `for attempt in range(max_retries)`: before any
attempt with positive index it sleeps `2 ** attempt` plus the drawn
jitter; a raised rate-limit error before the final attempt sleeps the
cooldown and continues; a rate-limit error on the final attempt returns
the `"rate_limit"` fallback; any other error on the final attempt returns
the `"api_error"` fallback; other errors just continue.  Returns the
response together with the event trace. -/
def retryAux (svc : Nat → Outcome) (jit : Nat → ℚ) (maxRetries : Nat) :
    Nat → Response × List Ev
  | 0 => (getFallbackResponse "max_retries", [])
  | r + 1 =>
    let attempt := maxRetries - (r + 1)
    let pre : List Ev :=
      if 0 < attempt then [Ev.sleep ((2 : ℚ) ^ attempt + jit attempt)] else []
    match svc attempt with
    | Outcome.ok t => ({ text := t }, pre ++ [Ev.call attempt])
    | Outcome.err m =>
      if isRateLimitMsg m then
        if attempt < maxRetries - 1 then
          let next := retryAux svc jit maxRetries r
          (next.1, pre ++ [Ev.call attempt, Ev.sleep ((retryDelayOf m : ℚ))] ++ next.2)
        else (getFallbackResponse "rate_limit", pre ++ [Ev.call attempt])
      else if attempt = maxRetries - 1 then
        (getFallbackResponse "api_error", pre ++ [Ev.call attempt])
      else
        let next := retryAux svc jit maxRetries r
        (next.1, pre ++ [Ev.call attempt] ++ next.2)

/-- Model of `_make_api_request_with_retry(prompt, max_retries=3)`, with the
service behaviour already specialised to the prompt. -/
def makeApiRequestWithRetry (svc : Nat → Outcome) (jit : Nat → ℚ)
    (maxRetries : Nat := 3) : Response × List Ev :=
  retryAux svc jit maxRetries maxRetries

/-- Number of service invocations recorded in a trace. -/
def countCalls (tr : List Ev) : Nat :=
  (tr.filter fun e => match e with | Ev.call _ => true | Ev.sleep _ => false).length

/-- Model of `_create_answer_evaluation_prompt(question, answer, context)`: the
f-string template with the empty-context default applied. -/
def createAnswerEvaluationPrompt (question answer context : String) : String :=
  "\nYou are an expert interview evaluator. Please evaluate the following interview answer comprehensively.\n\nContext: "
  ++ (if context.isEmpty then "General interview evaluation" else context)
  ++ "\n\nQuestion: " ++ question
  ++ "\n\nAnswer: " ++ answer
  ++ "\n\nPlease evaluate this answer and provide feedback in the following JSON format:\n\n"
  ++ "\x7b\n    \"overall_score\": [score out of 100],\n    \"detailed_scores\": \x7b\n"
  ++ "        \"clarity\": [score out of 20 - how clear and well-structured is the answer],\n"
  ++ "        \"completeness\": [score out of 20 - how thoroughly does it address the question],\n"
  ++ "        \"accuracy\": [score out of 20 - technical accuracy and correctness],\n"
  ++ "        \"relevance\": [score out of 20 - how relevant is the answer to the question],\n"
  ++ "        \"communication\": [score out of 20 - communication skills demonstrated]\n    \x7d,\n"
  ++ "    \"strengths\": [list of 2-4 specific strengths in the answer],\n"
  ++ "    \"weaknesses\": [list of 2-4 areas that could be improved],\n"
  ++ "    \"improvement_suggestions\": [list of 3-5 specific suggestions for improvement],\n"
  ++ "    \"detailed_feedback\": \"[2-3 paragraph detailed feedback]\",\n"
  ++ "    \"overall_impression\": \"[Excellent/Good/Satisfactory/Needs Improvement/Poor]\",\n"
  ++ "    \"missing_elements\": [list of important elements that should have been included],\n"
  ++ "    \"follow_up_questions\": [list of 2-3 follow-up questions an interviewer might ask]\n\x7d\n\n"
  ++ "Provide constructive, specific feedback that helps the candidate improve their interview performance.\n"

/-- The `_get_fallback_evaluation()` payload. -/
def getFallbackEvaluation : Json :=
  Json.obj
    [ ("overall_score", Json.num 70 0)
    , ("detailed_scores", Json.obj
        [ ("clarity", Json.num 14 0)
        , ("completeness", Json.num 14 0)
        , ("accuracy", Json.num 14 0)
        , ("relevance", Json.num 14 0)
        , ("communication", Json.num 14 0) ])
    , ("strengths", Json.arr [Json.str "Shows understanding of the topic"])
    , ("weaknesses", Json.arr [Json.str "Could provide more specific details"])
    , ("improvement_suggestions", Json.arr
        [Json.str "Add concrete examples", Json.str "Structure answer more clearly"])
    , ("detailed_feedback", Json.str "Unable to provide detailed evaluation due to API issues. The answer shows basic understanding but could benefit from more specific examples and clearer structure.")
    , ("overall_impression", Json.str "Satisfactory")
    , ("missing_elements", Json.arr
        [Json.str "Specific examples", Json.str "Detailed explanations"])
    , ("follow_up_questions", Json.arr
        [Json.str "Can you provide a specific example?", Json.str "How would you handle edge cases?"]) ]

/-- The `_get_fallback_comprehensive_evaluation()` payload. -/
def getFallbackComprehensiveEvaluation : Json :=
  Json.obj
    [ ("overall_score", Json.num 70 0)
    , ("category_scores", Json.obj
        [ ("technical_knowledge", Json.num 14 0)
        , ("problem_solving", Json.num 14 0)
        , ("communication", Json.num 14 0)
        , ("experience", Json.num 14 0)
        , ("professionalism", Json.num 14 0) ])
    , ("strengths", Json.arr [Json.str "Shows technical understanding"])
    , ("areas_for_improvement", Json.arr [Json.str "Provide more specific examples"])
    , ("detailed_feedback", Json.str "Unable to provide detailed evaluation due to API issues. Consider providing more specific examples and structuring answers more clearly.")
    , ("interview_readiness", Json.str "Needs Preparation")
    , ("recommendations", Json.arr
        [Json.str "Practice with specific examples", Json.str "Work on answer structure"]) ]

/-- Model of `evaluate_single_answer(question, answer, context="")`: build the
prompt, call the retry wrapper against the service behaviour, extract
JSON from the response text, and return the result only when it is a dict
without a truthy `error` entry, else the fallback evaluation.  The
surrounding `except` arm of the source is unreachable in the typed model
(every modelled step is total). -/
def evaluateSingleAnswer (beh : String → Nat → Outcome) (jit : Nat → ℚ)
    (question answer : String) (context : String := "") : Json :=
  let prompt := createAnswerEvaluationPrompt question answer context
  let response := (makeApiRequestWithRetry (beh prompt) jit).1
  let result := extractJsonSafe response.text
  match result with
  | Json.obj kvs =>
    if truthyOpt (jGet kvs "error") then getFallbackEvaluation else Json.obj kvs
  | _ => getFallbackEvaluation

/-- The `Q{i}/A{i}` listing built by
`_create_multiple_answers_evaluation_prompt`. -/
def qaTextAux : Nat → List (String × String) → String
  | _, [] => ""
  | i, (q, a) :: rest =>
    "\nQ" ++ toString i ++ ": " ++ q ++ "\nA" ++ toString i ++ ": " ++ a ++ "\n"
    ++ qaTextAux (i + 1) rest

/-- Model of `_create_multiple_answers_evaluation_prompt(qa_pairs, context)`. -/
def createMultipleAnswersEvaluationPrompt (qaPairs : List (String × String))
    (context : String) : String :=
  "\nYou are an expert interview evaluator. Please evaluate the following complete interview session comprehensively.\n\nContext: "
  ++ (if context.isEmpty then "General interview evaluation" else context)
  ++ "\n\nInterview Questions and Answers:\n" ++ qaTextAux 1 qaPairs
  ++ "\n\nPlease evaluate this interview session and provide feedback in the following JSON format:\n\n"
  ++ "\x7b\n    \"overall_score\": [score out of 100],\n    \"individual_scores\": [\n"
  ++ "        \x7b\n            \"question_number\": 1,\n            \"score\": [score out of 100],\n"
  ++ "            \"feedback\": \"[brief feedback for this answer]\"\n        \x7d\n"
  ++ "        // ... for each question\n    ],\n    \"category_scores\": \x7b\n"
  ++ "        \"technical_knowledge\": [score out of 20],\n        \"problem_solving\": [score out of 20],\n"
  ++ "        \"communication\": [score out of 20],\n        \"experience\": [score out of 20],\n"
  ++ "        \"professionalism\": [score out of 20]\n    \x7d,\n"
  ++ "    \"strengths\": [list of overall strengths across all answers],\n"
  ++ "    \"areas_for_improvement\": [list of areas needing improvement],\n"
  ++ "    \"consistency_analysis\": \"[analysis of consistency across answers]\",\n"
  ++ "    \"detailed_feedback\": \"[comprehensive 3-4 paragraph feedback]\",\n"
  ++ "    \"interview_readiness\": \"[Ready/Nearly Ready/Needs Preparation/Significant Preparation Needed]\",\n"
  ++ "    \"recommendations\": [list of specific recommendations for improvement],\n"
  ++ "    \"standout_moments\": [list of particularly impressive aspects],\n"
  ++ "    \"red_flags\": [list of concerning aspects, if any]\n\x7d\n\n"
  ++ "Provide honest, constructive feedback that helps the candidate understand their performance and improve.\n"

/-- Model of `evaluate_multiple_answers(qa_pairs, context="")`, same gating as the
single-answer operation but with the comprehensive fallback. -/
def evaluateMultipleAnswers (beh : String → Nat → Outcome) (jit : Nat → ℚ)
    (qaPairs : List (String × String)) (context : String := "") : Json :=
  let prompt := createMultipleAnswersEvaluationPrompt qaPairs context
  let response := (makeApiRequestWithRetry (beh prompt) jit).1
  let result := extractJsonSafe response.text
  match result with
  | Json.obj kvs =>
    if truthyOpt (jGet kvs "error") then getFallbackComprehensiveEvaluation
    else Json.obj kvs
  | _ => getFallbackComprehensiveEvaluation

/-- Model of `label.lower().replace(' ', '_')`, used for the score keys inside the
comparison prompt. -/
def labelKey (lbl : String) : String :=
  String.mk ((pyLowerL lbl.data).map (fun c => if c = ' ' then '_' else c))

/-- The inline comparison prompt of `compare_answers`. -/
def createComparePrompt (question answer1 answer2 : String)
    (labels : String × String) : String :=
  "\nYou are an expert interview evaluator. Please compare these two answers to the same interview question.\n\nQuestion: "
  ++ question
  ++ "\n\n" ++ labels.1 ++ ": " ++ answer1
  ++ "\n\n" ++ labels.2 ++ ": " ++ answer2
  ++ "\n\nPlease provide a detailed comparison in the following JSON format:\n\n"
  ++ "\x7b\n    \"comparison_summary\": \"[Overall summary of the comparison]\",\n    \"scores\": \x7b\n"
  ++ "        \"" ++ labelKey labels.1 ++ "\": [score out of 100],\n"
  ++ "        \"" ++ labelKey labels.2 ++ "\": [score out of 100]\n    \x7d,\n"
  ++ "    \"detailed_comparison\": \x7b\n        \"clarity\": \"[comparison of clarity]\",\n"
  ++ "        \"completeness\": \"[comparison of completeness]\",\n"
  ++ "        \"accuracy\": \"[comparison of accuracy]\",\n"
  ++ "        \"examples\": \"[comparison of examples used]\",\n"
  ++ "        \"structure\": \"[comparison of answer structure]\"\n    \x7d,\n"
  ++ "    \"winner\": \"[" ++ labels.1 ++ "/" ++ labels.2 ++ "/Tie]\",\n"
  ++ "    \"reasoning\": \"[detailed reasoning for the winner]\",\n"
  ++ "    \"best_elements\": \x7b\n"
  ++ "        \"" ++ labelKey labels.1 ++ "\": [list of best elements from answer 1],\n"
  ++ "        \"" ++ labelKey labels.2 ++ "\": [list of best elements from answer 2]\n    \x7d,\n"
  ++ "    \"improvement_suggestions\": \x7b\n"
  ++ "        \"" ++ labelKey labels.1 ++ "\": [suggestions for answer 1],\n"
  ++ "        \"" ++ labelKey labels.2 ++ "\": [suggestions for answer 2]\n    \x7d\n\x7d\n"

/-- Model of `compare_answers(question, answer1, answer2, labels=["Answer A",
"Answer B"])`: on a dict result without a truthy `error` entry, that
result; otherwise the fixed error mapping.  The `except` arm returning
`"Comparison failed: <reason>"` is unreachable in the typed model. -/
def compareAnswers (beh : String → Nat → Outcome) (jit : Nat → ℚ)
    (question answer1 answer2 : String)
    (labels : String × String := ("Answer A", "Answer B")) : Json :=
  let prompt := createComparePrompt question answer1 answer2 labels
  let response := (makeApiRequestWithRetry (beh prompt) jit).1
  let result := extractJsonSafe response.text
  match result with
  | Json.obj kvs =>
    if truthyOpt (jGet kvs "error") then
      Json.obj [("error", Json.str "Failed to compare answers")]
    else Json.obj kvs
  | _ => Json.obj [("error", Json.str "Failed to compare answers")]

/-- The `_get_fallback_questions()` payload. -/
def getFallbackQuestions : Json :=
  Json.obj
    [ ("question1", Json.str "What is your experience with the technologies mentioned in your profile?")
    , ("question2", Json.str "Can you explain a challenging problem you\x27ve solved recently?")
    , ("question3", Json.str "How do you approach debugging and troubleshooting issues?")
    , ("question4", Json.str "Describe your experience with version control and collaboration tools.")
    , ("question5", Json.str "What are your preferred development methodologies and why?") ]

/-- Approximation of Python `str()` on the non-dict branch of the
question-generation prompt (no theorem evaluates this branch; the
application always passes a dict of profile fields). -/
def pyStrApprox : Json → String
  | Json.str s => s
  | Json.null => "None"
  | Json.bool true => "True"
  | Json.bool false => "False"
  | Json.num m e => String.mk (dumpsNum m e)
  | Json.nan => "nan"
  | Json.inf => "inf"
  | Json.ninf => "-inf"
  | v => pyJsonDumps v

/-- Model of `_create_question_generation_prompt(data)`: candidate data is rendered
with `json.dumps(data, indent=2)` when it is a dict, else with `str`. -/
def createQuestionGenerationPrompt (data : Json) : String :=
  "\nYou are an expert technical interviewer. Based on the following candidate information, generate 5 relevant technical interview questions.\n\nCandidate Information:\n"
  ++ (match data with
      | Json.obj kvs => String.mk (dumpsIndJson 0 (Json.obj kvs))
      | v => pyStrApprox v)
  ++ "\n\nGenerate questions that are:\n1. Relevant to their experience level and technologies mentioned\n"
  ++ "2. Progressive in difficulty\n3. Mix of technical knowledge, problem-solving, and experience-based questions\n"
  ++ "4. Appropriate for their stated role/position\n\nPlease provide exactly 5 questions in the following JSON format:\n\n"
  ++ "\x7b\n    \"question1\": \"[First technical question]\",\n    \"question2\": \"[Second technical question]\", \n"
  ++ "    \"question3\": \"[Third technical question]\",\n    \"question4\": \"[Fourth technical question]\",\n"
  ++ "    \"question5\": \"[Fifth technical question]\"\n\x7d\n\n"
  ++ "Make sure the questions are specific, clear, and would help assess the candidate\x27s technical competency.\n"

/-- The `question_keys` list `[f"question{i}" for i in range(1, 6)]`. -/
def questionKeys : List String :=
  ["question1", "question2", "question3", "question4", "question5"]

/-- Model of `generate_questions(data)`: returns a JSON **string** (the source ends
every branch in `json.dumps(...)`).  With no model (failed initialisation)
it immediately serialises the fallback questions; otherwise the parsed
response is serialised when it is an error-free dict carrying at least one
`questionN` key, and the fallback questions are serialised in every other
case. -/
def generateQuestions (beh : String → Nat → Outcome) (jit : Nat → ℚ)
    (modelPresent : Bool) (data : Json) : Json :=
  if !modelPresent then Json.str (pyJsonDumps getFallbackQuestions)
  else
    let prompt := createQuestionGenerationPrompt data
    let response := (makeApiRequestWithRetry (beh prompt) jit).1
    let result := extractJsonSafe response.text
    match result with
    | Json.obj kvs =>
      if truthyOpt (jGet kvs "error") then Json.str (pyJsonDumps getFallbackQuestions)
      else if questionKeys.any (fun k => hasKey kvs k) then
        Json.str (pyJsonDumps (Json.obj kvs))
      else Json.str (pyJsonDumps getFallbackQuestions)
    | _ => Json.str (pyJsonDumps getFallbackQuestions)

/-- The ordered model preference list of `__init__`. -/
def preferredModels : List String :=
  ["models/gemini-1.5-flash", "models/gemini-1.5-pro", "models/gemini-1.5-pro-latest"]

/-- The agent state produced by `__init__` that the operations read:
`self.model`, present iff model selection succeeded. -/
structure Agent where
  model : Option String

/-- Model of `AnswerEvaluationAgent.__init__`: a falsy `GOOGLE_API_KEY` (unset or
empty) raises `ValueError` immediately; afterwards, everything — a failing
`list_models()` call *and* the `ValueError` raised when no preferred model
is available — happens inside one `try` whose own `except Exception`
handler logs and sets `self.model = None`, so initialisation completes.
`listModels` is the outcome of the `gen_ai.list_models()` call
(`gen_ai.configure` only stores the key). -/
def agentInit (apiKey : Option String) (listModels : Except String (List String)) :
    Except String Agent :=
  match apiKey with
  | none => Except.error "GOOGLE_API_KEY not found in environment variables"
  | some key =>
    if key.isEmpty then Except.error "GOOGLE_API_KEY not found in environment variables"
    else
      match listModels with
      | Except.error _ => Except.ok { model := none }
      | Except.ok available =>
        match preferredModels.find? (fun m => available.contains m) with
        | some m => Except.ok { model := some m }
        | none => Except.ok { model := none }

/-- Comparison of two exact decimals: `m1 * 10 ^ e1 ≤ m2 * 10 ^ e2`. -/
def numLe (m1 e1 m2 e2 : Int) : Bool :=
  if e1 ≤ e2 then decide (m1 ≤ m2 * (10 : Int) ^ (e2 - e1).toNat)
  else decide (m1 * (10 : Int) ^ (e1 - e2).toNat ≤ m2)

/-- Modelled from the spec: the Evaluation Result shape — "overall numeric
score (0–100), a mapping from named category to sub-score, lists of
strengths/weaknesses/improvement suggestions, free-text detailed feedback,
and an enumerated overall impression".  The source contains no such
validator; this definition exists to compare the spec's validation claim
(C2) against what the code actually checks. -/
def specEvaluationResultShape (j : Json) : Bool :=
  match j with
  | Json.obj kvs =>
    (match jGet kvs "overall_score" with
     | some (Json.num m e) => decide (0 ≤ m) && numLe m e 100 0
     | _ => false)
    && (match jGet kvs "detailed_scores" with
        | some (Json.obj ds) =>
          ds.all (fun kv => match kv.2 with | Json.num _ _ => true | _ => false)
        | _ => false)
    && (match jGet kvs "strengths" with | some (Json.arr _) => true | _ => false)
    && (match jGet kvs "weaknesses" with | some (Json.arr _) => true | _ => false)
    && (match jGet kvs "improvement_suggestions" with
        | some (Json.arr _) => true | _ => false)
    && (match jGet kvs "detailed_feedback" with | some (Json.str _) => true | _ => false)
    && (match jGet kvs "overall_impression" with
        | some (Json.str s) =>
          ["Excellent", "Good", "Satisfactory", "Needs Improvement", "Poor"].contains s
        | _ => false)
  | _ => false

set_option maxRecDepth 100000

theorem firstIdx_eq_none_of_forall (p : Char → Bool) (l : List Char)
    (h : ∀ c ∈ l, p c = false) : firstIdx p l = none := by
  induction l with
  | nil => rfl
  | cons a t ih =>
    simp only [firstIdx, h a (List.mem_cons_self a t), Bool.false_eq_true, if_false]
    rw [ih (fun c hc => h c (List.mem_cons_of_mem a hc))]
    rfl

theorem firstIdx_append_none (p : Char → Bool) (l1 l2 : List Char)
    (h : firstIdx p l1 = none) :
    firstIdx p (l1 ++ l2) = (firstIdx p l2).map (· + l1.length) := by
  induction l1 with
  | nil => simp [firstIdx]
  | cons a t ih =>
    by_cases hp : p a
    · simp [firstIdx, hp] at h
    · simp only [firstIdx, hp, Bool.false_eq_true, if_false] at h ⊢
      rcases ht : firstIdx p t with _ | i
      · simp only [List.append_eq]
        rw [ih ht]
        cases firstIdx p l2 <;> simp <;> omega
      · simp [ht] at h

theorem splitNl_ne_nil (l : List Char) : splitNl l ≠ [] := by
  cases l with
  | nil => simp [splitNl]
  | cons a t => by_cases ha : a = '\n' <;> simp [splitNl, ha]

theorem mem_of_mem_splitNl (l : List Char) :
    ∀ part ∈ splitNl l, ∀ c ∈ part, c ∈ l := by
  induction l with
  | nil =>
    intro part hp c hc
    simp only [splitNl, List.mem_singleton] at hp
    subst hp
    simp at hc
  | cons a t ih =>
    intro part hp c hc
    cases hs : splitNl t with
    | nil => exact absurd hs (splitNl_ne_nil t)
    | cons h0 r =>
      by_cases ha : a = '\n'
      · rw [show splitNl (a :: t) = [] :: splitNl t by simp [splitNl, ha]] at hp
        simp only [List.mem_cons] at hp
        rcases hp with rfl | hp
        · simp at hc
        · exact List.mem_cons_of_mem _ (ih part hp c hc)
      · rw [show splitNl (a :: t) = (a :: h0) :: r by simp [splitNl, ha, hs]] at hp
        simp only [List.mem_cons] at hp
        rcases hp with rfl | hp
        · simp only [List.mem_cons] at hc
          rcases hc with rfl | hc
          · exact List.mem_cons_self c t
          · exact List.mem_cons_of_mem _
              (ih h0 (by rw [hs]; exact List.mem_cons_self h0 r) c hc)
        · exact List.mem_cons_of_mem _
            (ih part (by rw [hs]; exact List.mem_cons_of_mem h0 hp) c hc)

theorem mem_of_mem_stripLinesGo (b : Bool) (parts : List (List Char)) :
    ∀ part ∈ stripLinesGo b parts, part ∈ parts := by
  induction parts generalizing b with
  | nil => intro part hp; simp [stripLinesGo] at hp
  | cons line rest ih =>
    intro part hp
    simp only [stripLinesGo] at hp
    split at hp
    · exact List.mem_cons_of_mem _ (ih _ part hp)
    · split at hp
      · simp only [List.mem_cons] at hp
        rcases hp with rfl | hp
        · exact List.mem_cons_self part rest
        · exact List.mem_cons_of_mem _ (ih _ part hp)
      · exact List.mem_cons_of_mem _ (ih _ part hp)

theorem mem_joinNl_cases (parts : List (List Char)) (c : Char) (hc : c ∈ joinNl parts) :
    c = '\n' ∨ ∃ part ∈ parts, c ∈ part := by
  induction parts with
  | nil => simp [joinNl] at hc
  | cons l ls ih =>
    rcases ls with _ | ⟨l2, ls2⟩
    · right
      exact ⟨l, by simp, hc⟩
    · simp only [joinNl] at hc
      rcases List.mem_append.mp hc with h | h
      · right
        exact ⟨l, by simp, h⟩
      · simp only [List.mem_cons] at h
        rcases h with rfl | h
        · left; rfl
        · rcases ih h with h2 | ⟨part, hp, hcp⟩
          · left; exact h2
          · right
            exact ⟨part, List.mem_cons_of_mem _ hp, hcp⟩

theorem not_mem_fenceStage (l : List Char) (c : Char) (hc : c ∉ l) (hnl : c ≠ '\n') :
    c ∉ fenceStage l := by
  unfold fenceStage
  split
  · intro hmem
    rcases mem_joinNl_cases _ c hmem with h | ⟨part, hp, hcp⟩
    · exact hnl h
    · exact hc (mem_of_mem_splitNl l part (mem_of_mem_stripLinesGo false _ part hp) c hcp)
  · exact hc

theorem pyFindChar_concat (A R : List Char) (hA : '{' ∉ A) :
    pyFindChar '{' (A ++ '{' :: R) = (A.length : Int) := by
  unfold pyFindChar
  rw [firstIdx_append_none _ _ _ (firstIdx_eq_none_of_forall _ _ ?_)]
  · simp [firstIdx]
  · intro c hc
    simp only [beq_eq_false_iff_ne, ne_eq]
    rintro rfl
    exact hA hc

theorem pyRFindChar_concat (M B : List Char) (hB : '}' ∉ B) :
    pyRFindChar '}' (M ++ '}' :: B) = (M.length : Int) := by
  unfold pyRFindChar
  rw [show (M ++ '}' :: B).reverse = B.reverse ++ '}' :: M.reverse by
    simp [List.reverse_append]]
  rw [firstIdx_append_none _ _ _ (firstIdx_eq_none_of_forall _ _ ?_)]
  · simp [firstIdx]
  · intro c hc
    simp only [beq_eq_false_iff_ne, ne_eq]
    rintro rfl
    exact hB (List.mem_reverse.mp hc)

theorem sliceStage_extract (A mid B : List Char) (hA : '{' ∉ A) (hB : '}' ∉ B) :
    sliceStage (A ++ '{' :: (mid ++ '}' :: B)) = '{' :: (mid ++ ['}']) := by
  have hfind : pyFindChar '{' (A ++ '{' :: (mid ++ '}' :: B)) = (A.length : Int) :=
    pyFindChar_concat A (mid ++ '}' :: B) hA
  have hrfind : pyRFindChar '}' (A ++ '{' :: (mid ++ '}' :: B)) =
      ((A.length + 1 + mid.length : Nat) : Int) := by
    rw [show A ++ '{' :: (mid ++ '}' :: B) = (A ++ '{' :: mid) ++ '}' :: B by simp]
    rw [pyRFindChar_concat _ _ hB]
    simp
    omega
  unfold sliceStage
  rw [hfind, hrfind]
  rw [if_pos (by constructor <;> push_cast <;> omega)]
  rw [show ((A.length : Int)).toNat = A.length by omega]
  rw [show (((A.length + 1 + mid.length : Nat) : Int) + 1 - (A.length : Int)).toNat
      = mid.length + 2 by omega]
  rw [List.drop_left]
  rw [show mid.length + 2 = mid.length + 1 + 1 by omega, List.take_succ_cons]
  rw [show mid ++ '}' :: B = (mid ++ ['}']) ++ B by simp]
  rw [show mid.length + 1 = (mid ++ ['}']).length by simp]
  rw [List.take_left]

theorem sliceStage_id_of_no_lbrace (l : List Char) (h : '{' ∉ l) :
    sliceStage l = l := by
  have hf : firstIdx (fun x => x == '{') l = none := by
    apply firstIdx_eq_none_of_forall
    intro c hc
    simp only [beq_eq_false_iff_ne, ne_eq]
    rintro rfl
    exact h hc
  unfold sliceStage pyFindChar
  rw [hf]
  norm_num

theorem fenceStage_eq_of_not_fenced (l : List Char)
    (h : listStartsWith l ("```".data) = false) : fenceStage l = l := by
  unfold fenceStage
  rw [h]
  simp

theorem retryResultAllErr (svc : Nat → Outcome) (jit : Nat → ℚ)
    (h : ∀ k, k < 3 → ∃ m, svc k = Outcome.err m) :
    (makeApiRequestWithRetry svc jit).1 = getFallbackResponse "api_error" := by
  obtain ⟨m0, h0⟩ := h 0 (by omega)
  obtain ⟨m1, h1⟩ := h 1 (by omega)
  obtain ⟨m2, h2⟩ := h 2 (by omega)
  show (retryAux svc jit 3 3).1 = _
  by_cases r0 : isRateLimitMsg m0 <;> by_cases r1 : isRateLimitMsg m1 <;>
    by_cases r2 : isRateLimitMsg m2 <;>
    simp [retryAux, h0, h1, h2, r0, r1, r2, getFallbackResponse]

theorem retrySuccess0 (svc : Nat → Outcome) (jit : Nat → ℚ) (t : String)
    (h : svc 0 = Outcome.ok t) :
    (makeApiRequestWithRetry svc jit).1 = { text := t } := by
  simp [makeApiRequestWithRetry, retryAux, h]

theorem retryTraceNoRateLimit (svc : Nat → Outcome) (jit : Nat → ℚ)
    (hnr : ∀ k m, svc k = Outcome.err m → isRateLimitMsg m = false) :
    (makeApiRequestWithRetry svc jit).2 = [Ev.call 0]
    ∨ (makeApiRequestWithRetry svc jit).2 =
        [Ev.call 0, Ev.sleep ((2 : ℚ) ^ 1 + jit 1), Ev.call 1]
    ∨ (makeApiRequestWithRetry svc jit).2 =
        [Ev.call 0, Ev.sleep ((2 : ℚ) ^ 1 + jit 1), Ev.call 1,
         Ev.sleep ((2 : ℚ) ^ 2 + jit 2), Ev.call 2] := by
  rcases e0 : svc 0 with t0 | m0
  · left
    simp [makeApiRequestWithRetry, retryAux, e0]
  · have r0 := hnr 0 m0 e0
    rcases e1 : svc 1 with t1 | m1
    · right; left
      simp [makeApiRequestWithRetry, retryAux, e0, e1, r0]
    · have r1 := hnr 1 m1 e1
      rcases e2 : svc 2 with t2 | m2
      · right; right
        simp [makeApiRequestWithRetry, retryAux, e0, e1, e2, r0, r1]
      · right; right
        simp [makeApiRequestWithRetry, retryAux, e0, e1, e2, r0, r1, hnr 2 m2 e2]

theorem retryFirstSuccess (svc : Nat → Outcome) (jit : Nat → ℚ) (k : Nat) (t : String)
    (hk : k < 3) (hs : svc k = Outcome.ok t)
    (hprev : ∀ j, j < k → ∃ m, svc j = Outcome.err m) :
    (makeApiRequestWithRetry svc jit).1 = { text := t } ∧
    countCalls (makeApiRequestWithRetry svc jit).2 = k + 1 ∧
    ∀ i, Ev.call i ∈ (makeApiRequestWithRetry svc jit).2 → i ≤ k := by
  interval_cases k
  · refine ⟨?_, ?_, ?_⟩ <;>
      simp [makeApiRequestWithRetry, retryAux, hs, countCalls]
  · obtain ⟨m0, e0⟩ := hprev 0 (by omega)
    by_cases r0 : isRateLimitMsg m0 <;>
      (refine ⟨?_, ?_, ?_⟩ <;>
        simp [makeApiRequestWithRetry, retryAux, hs, e0, r0, countCalls]) <;>
      (intro i hi; rcases hi with hi | hi | hi <;> omega)
  · obtain ⟨m0, e0⟩ := hprev 0 (by omega)
    obtain ⟨m1, e1⟩ := hprev 1 (by omega)
    by_cases r0 : isRateLimitMsg m0 <;> by_cases r1 : isRateLimitMsg m1 <;>
      (refine ⟨?_, ?_, ?_⟩ <;>
        simp [makeApiRequestWithRetry, retryAux, hs, e0, e1, r0, r1, countCalls]) <;>
      (intro i hi; rcases hi with hi | hi | hi | hi | hi <;> omega)

theorem extract_fallback_response_text :
    extractJsonSafe (pyJsonDumps fallbackResponsePayload) = fallbackResponsePayload := rfl

theorem fallback_payload_accepted :
    acceptedResult fallbackResponsePayload = true := rfl

/-- Claim C5: `_extract_json_safe` is invariant under markdown wrapping of
a JSON object string.  For every text of the form
`prose1 ++ "```json\n" ++ s ++ "\n```\n" ++ prose2` — where `s` is a
brace-delimited object string `'｛' :: mid ++ "｝"`, the whole text does not
itself start with a fence (so the line-stripping branch is not taken),
`prose1` contains no `'｛'` and `prose2` contains no `'｝'` — extraction
returns exactly what extraction returns on `s` alone; and on the concrete
raw text from the spec it returns the mapping `{"a": 1}`. -/
theorem C5_markdown_invariance (p1 p2 mid : List Char)
    (hfence : listStartsWith
      (p1 ++ "```json\n".data ++ '{' :: (mid ++ '}' :: ("\n```\n".data ++ p2)))
      ("```".data) = false)
    (hp1 : '{' ∉ p1) (hp2 : '}' ∉ p2) :
    extractJsonSafeL
      (p1 ++ "```json\n".data ++ '{' :: (mid ++ '}' :: ("\n```\n".data ++ p2)))
      = extractJsonSafeL ('{' :: (mid ++ ['}']))
    ∧ extractJsonSafe "Here you go:\n```json\n\x7b\"a\":1\x7d\n```\nThanks"
      = Json.obj [("a", Json.num 1 0)] := by
  constructor
  · have hA : '{' ∉ p1 ++ "```json\n".data := by
      intro h
      rcases List.mem_append.mp h with h | h
      · exact hp1 h
      · exact absurd h (by decide)
    have hB : '}' ∉ "\n```\n".data ++ p2 := by
      intro h
      rcases List.mem_append.mp h with h | h
      · exact absurd h (by decide)
      · exact hp2 h
    unfold extractJsonSafeL
    rw [fenceStage_eq_of_not_fenced _ hfence]
    rw [fenceStage_eq_of_not_fenced ('{' :: (mid ++ ['}'])) rfl]
    rw [show p1 ++ "```json\n".data ++ '{' :: (mid ++ '}' :: ("\n```\n".data ++ p2))
        = (p1 ++ "```json\n".data) ++ '{' :: (mid ++ '}' :: ("\n```\n".data ++ p2))
        by simp]
    rw [sliceStage_extract _ _ _ hA hB]
    rw [show '{' :: (mid ++ ['}']) = [] ++ '{' :: (mid ++ '}' :: ([] : List Char))
        by simp]
    rw [sliceStage_extract [] mid [] (by simp) (by simp)]
    simp
  · rfl

/-- Witness for C5 at the spec's concrete raw text. -/
theorem C5_markdown_invariance_witness :
    extractJsonSafeL
      ("Here you go:\n".data ++ "```json\n".data
        ++ '{' :: ("\"a\":1".data ++ '}' :: ("\n```\n".data ++ "Thanks".data)))
      = extractJsonSafeL ('{' :: ("\"a\":1".data ++ ['}']))
    ∧ extractJsonSafe "Here you go:\n```json\n\x7b\"a\":1\x7d\n```\nThanks"
      = Json.obj [("a", Json.num 1 0)] :=
  C5_markdown_invariance ("Here you go:\n".data) ("Thanks".data) ("\"a\":1".data)
    (by decide) (by decide) (by decide)

/-- Claim C4 (amended): whenever the preprocessed text (fence stripping
followed by brace slicing) fails to parse as JSON, `_extract_json_safe`
returns the sentinel mapping `{"error": "Invalid JSON response from API"}`
— and for an input with no `'｛'` the slicing step is the identity, so a
brace-free input that does not parse as a JSON value yields the sentinel.
The claim's original universal statement — every brace-free input yields
the sentinel — is false: a brace-free input that is itself valid JSON
(such as `"123"`) is parsed and returned, see the counterexample. -/
theorem C4_parse_failure_sentinel (l : List Char) :
    ((∃ e, jsonLoads (sliceStage (fenceStage l)) = Except.error e) →
      extractJsonSafeL l = invalidJsonSentinel)
    ∧ ('{' ∉ l → sliceStage (fenceStage l) = fenceStage l) := by
  constructor
  · rintro ⟨e, he⟩
    unfold extractJsonSafeL
    rw [he]
  · intro hl
    exact sliceStage_id_of_no_lbrace _ (not_mem_fenceStage l '{' hl (by decide))

/-- Witness for C4 at a brace-free non-JSON input. -/
theorem C4_parse_failure_sentinel_witness :
    extractJsonSafeL ("The model could not answer.".data) = invalidJsonSentinel
    ∧ sliceStage (fenceStage ("The model could not answer.".data))
      = fenceStage ("The model could not answer.".data) :=
  ⟨(C4_parse_failure_sentinel _).1 ⟨"Expecting value", rfl⟩,
   (C4_parse_failure_sentinel _).2 (by decide)⟩

/-- Counterexample for C4 as stated: `"123"` contains no brace, yet
`_extract_json_safe` returns the parsed number `123`, not the sentinel
mapping (and not a mapping at all). -/
theorem C4_counterexample :
    ('{' ∉ "123".data ∧ '}' ∉ "123".data)
    ∧ extractJsonSafe "123" = Json.num 123 0
    ∧ extractJsonSafe "123" ≠ invalidJsonSentinel := by
  refine ⟨by decide, rfl, fun h => ?_⟩
  rw [show extractJsonSafe "123" = Json.num 123 0 from rfl] at h
  simp only [invalidJsonSentinel] at h
  exact Json.noConfusion h

/-- Claim C1 (amended): under every service failure mode no operation
raises — each returns a fixed hard-coded payload — but the payload is not
always the operation's own, and `compare_answers` propagates an error
object.  When every attempt raises (service/network error, and rate-limit
exhaustion, whatever the messages): `generate_questions` returns the
serialised fallback questions, while `evaluate_single_answer`,
`evaluate_multiple_answers` *and* `compare_answers` all return the shared
synthesized single-evaluation payload of `_get_fallback_response`.  When
the service responds but with unparseable text: `generate_questions`
returns the serialised fallback questions, the two evaluation operations
return their own fallback payloads, and `compare_answers` returns the
fixed error mapping `{"error": "Failed to compare answers"}`. -/
theorem C1_failure_payloads (beh : String → Nat → Outcome) (jit : Nat → ℚ)
    (data : Json) (q a c : String) (qas : List (String × String))
    (q2 a1 a2 : String) :
    ((∀ p k, k < 3 → ∃ m, beh p k = Outcome.err m) →
      generateQuestions beh jit true data = Json.str (pyJsonDumps getFallbackQuestions)
      ∧ evaluateSingleAnswer beh jit q a c = fallbackResponsePayload
      ∧ evaluateMultipleAnswers beh jit qas c = fallbackResponsePayload
      ∧ compareAnswers beh jit q2 a1 a2 = fallbackResponsePayload)
    ∧ (∀ t, (∀ p, beh p 0 = Outcome.ok t) →
        extractJsonSafe t = invalidJsonSentinel →
      generateQuestions beh jit true data = Json.str (pyJsonDumps getFallbackQuestions)
      ∧ evaluateSingleAnswer beh jit q a c = getFallbackEvaluation
      ∧ evaluateMultipleAnswers beh jit qas c = getFallbackComprehensiveEvaluation
      ∧ compareAnswers beh jit q2 a1 a2
          = Json.obj [("error", Json.str "Failed to compare answers")]) := by
  constructor
  · intro hall
    have key : ∀ p, (makeApiRequestWithRetry (beh p) jit).1
        = getFallbackResponse "api_error" :=
      fun p => retryResultAllErr (beh p) jit (fun k hk => hall p k hk)
    refine ⟨?_, ?_, ?_, ?_⟩
    · unfold generateQuestions
      simp only [key]
      rfl
    · unfold evaluateSingleAnswer
      simp only [key]
      rfl
    · unfold evaluateMultipleAnswers
      simp only [key]
      rfl
    · unfold compareAnswers
      simp only [key]
      rfl
  · intro t hok hbad
    have key : ∀ p, (makeApiRequestWithRetry (beh p) jit).1 = { text := t } :=
      fun p => retrySuccess0 (beh p) jit t (hok p)
    refine ⟨?_, ?_, ?_, ?_⟩
    · unfold generateQuestions
      simp only [key, hbad]
      rfl
    · unfold evaluateSingleAnswer
      simp only [key, hbad]
      rfl
    · unfold evaluateMultipleAnswers
      simp only [key, hbad]
      rfl
    · unfold compareAnswers
      simp only [key, hbad]
      rfl

/-- Witness for C1 at concrete failing behaviours. -/
theorem C1_failure_payloads_witness :
    (generateQuestions (fun _ _ => Outcome.err "503 service unavailable")
        (fun _ => 0) true Json.null
      = Json.str (pyJsonDumps getFallbackQuestions)
     ∧ evaluateSingleAnswer (fun _ _ => Outcome.err "503 service unavailable")
        (fun _ => 0) "Q" "A" "" = fallbackResponsePayload
     ∧ evaluateMultipleAnswers (fun _ _ => Outcome.err "503 service unavailable")
        (fun _ => 0) [] "" = fallbackResponsePayload
     ∧ compareAnswers (fun _ _ => Outcome.err "503 service unavailable")
        (fun _ => 0) "Q" "A1" "A2" = fallbackResponsePayload)
    ∧ (generateQuestions (fun _ _ => Outcome.ok "I cannot help with that request.")
        (fun _ => 0) true Json.null
      = Json.str (pyJsonDumps getFallbackQuestions)
     ∧ evaluateSingleAnswer (fun _ _ => Outcome.ok "I cannot help with that request.")
        (fun _ => 0) "Q" "A" "" = getFallbackEvaluation
     ∧ evaluateMultipleAnswers (fun _ _ => Outcome.ok "I cannot help with that request.")
        (fun _ => 0) [] "" = getFallbackComprehensiveEvaluation
     ∧ compareAnswers (fun _ _ => Outcome.ok "I cannot help with that request.")
        (fun _ => 0) "Q" "A1" "A2"
        = Json.obj [("error", Json.str "Failed to compare answers")]) :=
  ⟨(C1_failure_payloads (fun _ _ => Outcome.err "503 service unavailable")
      (fun _ => 0) Json.null "Q" "A" "" [] "Q" "A1" "A2").1
    (fun _ _ _ => ⟨"503 service unavailable", rfl⟩),
   (C1_failure_payloads (fun _ _ => Outcome.ok "I cannot help with that request.")
      (fun _ => 0) Json.null "Q" "A" "" [] "Q" "A1" "A2").2
    "I cannot help with that request." (fun _ => rfl) rfl⟩

/-- Counterexample for C1 as stated: on a malformed response,
`compare_answers` returns `{"error": "Failed to compare answers"}` — an
error-keyed object propagated to the caller, not a fallback payload with
placeholder scores (its only key is `error`, and the `error` entry is
truthy). -/
theorem C1_counterexample :
    compareAnswers (fun _ _ => Outcome.ok "no json here") (fun _ => 0) "Q" "A1" "A2"
      = Json.obj [("error", Json.str "Failed to compare answers")]
    ∧ truthyOpt (jGet [("error", Json.str "Failed to compare answers")] "error") = true := by
  exact ⟨rfl, rfl⟩

theorem evaluateSingleAnswer_eq (beh : String → Nat → Outcome) (jit : Nat → ℚ)
    (q a c : String) :
    evaluateSingleAnswer beh jit q a c =
      match extractJsonSafe
          ((makeApiRequestWithRetry (beh (createAnswerEvaluationPrompt q a c)) jit).1.text) with
      | Json.obj kvs =>
        if truthyOpt (jGet kvs "error") then getFallbackEvaluation else Json.obj kvs
      | _ => getFallbackEvaluation := rfl

theorem evaluateMultipleAnswers_eq (beh : String → Nat → Outcome) (jit : Nat → ℚ)
    (qas : List (String × String)) (c : String) :
    evaluateMultipleAnswers beh jit qas c =
      match extractJsonSafe
          ((makeApiRequestWithRetry (beh (createMultipleAnswersEvaluationPrompt qas c)) jit).1.text) with
      | Json.obj kvs =>
        if truthyOpt (jGet kvs "error") then getFallbackComprehensiveEvaluation
        else Json.obj kvs
      | _ => getFallbackComprehensiveEvaluation := rfl

theorem compareAnswers_eq (beh : String → Nat → Outcome) (jit : Nat → ℚ)
    (q a1 a2 : String) (labels : String × String) :
    compareAnswers beh jit q a1 a2 labels =
      match extractJsonSafe
          ((makeApiRequestWithRetry (beh (createComparePrompt q a1 a2 labels)) jit).1.text) with
      | Json.obj kvs =>
        if truthyOpt (jGet kvs "error") then
          Json.obj [("error", Json.str "Failed to compare answers")]
        else Json.obj kvs
      | _ => Json.obj [("error", Json.str "Failed to compare answers")] := rfl

theorem generateQuestions_eq (beh : String → Nat → Outcome) (jit : Nat → ℚ)
    (data : Json) :
    generateQuestions beh jit true data =
      match extractJsonSafe
          ((makeApiRequestWithRetry (beh (createQuestionGenerationPrompt data)) jit).1.text) with
      | Json.obj kvs =>
        if truthyOpt (jGet kvs "error") then Json.str (pyJsonDumps getFallbackQuestions)
        else if questionKeys.any (fun k => hasKey kvs k) then
          Json.str (pyJsonDumps (Json.obj kvs))
        else Json.str (pyJsonDumps getFallbackQuestions)
      | _ => Json.str (pyJsonDumps getFallbackQuestions) := rfl

/-- Claim C2 (amended): `evaluate_single_answer` and
`evaluate_multiple_answers` return the extracted payload `r` precisely
when `r` is a mapping without a truthy `error` entry — the only check the
source applies (`isinstance(result, dict) and not result.get("error")`) —
and degrade to their fixed fallback evaluations otherwise.  The Evaluation
Result shape (overall score, sub-score mapping, lists, feedback text,
enumerated impression) is *not* validated: see the counterexample, where a
payload with none of those fields is returned as-is. -/
theorem C2_accept_condition (beh : String → Nat → Outcome) (jit : Nat → ℚ)
    (q a c : String) (qas : List (String × String)) :
    (∀ kvs,
      extractJsonSafe
          ((makeApiRequestWithRetry (beh (createAnswerEvaluationPrompt q a c)) jit).1.text)
        = Json.obj kvs →
      truthyOpt (jGet kvs "error") = false →
      evaluateSingleAnswer beh jit q a c = Json.obj kvs)
    ∧ (acceptedResult (extractJsonSafe
          ((makeApiRequestWithRetry (beh (createAnswerEvaluationPrompt q a c)) jit).1.text))
        = false →
      evaluateSingleAnswer beh jit q a c = getFallbackEvaluation)
    ∧ (∀ kvs,
      extractJsonSafe
          ((makeApiRequestWithRetry (beh (createMultipleAnswersEvaluationPrompt qas c)) jit).1.text)
        = Json.obj kvs →
      truthyOpt (jGet kvs "error") = false →
      evaluateMultipleAnswers beh jit qas c = Json.obj kvs)
    ∧ (acceptedResult (extractJsonSafe
          ((makeApiRequestWithRetry (beh (createMultipleAnswersEvaluationPrompt qas c)) jit).1.text))
        = false →
      evaluateMultipleAnswers beh jit qas c = getFallbackComprehensiveEvaluation) := by
  refine ⟨?_, ?_, ?_, ?_⟩
  · intro kvs hx he
    rw [evaluateSingleAnswer_eq, hx]
    simp [he]
  · intro hacc
    rw [evaluateSingleAnswer_eq]
    rcases hE : extractJsonSafe
        ((makeApiRequestWithRetry (beh (createAnswerEvaluationPrompt q a c)) jit).1.text)
      with _ | b | ⟨m, e⟩ | _ | _ | _ | s | el | kvs
    case obj =>
      rw [hE] at hacc
      simp only [acceptedResult] at hacc
      have ht : truthyOpt (jGet kvs "error") = true := by
        revert hacc
        cases truthyOpt (jGet kvs "error") <;> simp
      simp [ht]
    all_goals rfl
  · intro kvs hx he
    rw [evaluateMultipleAnswers_eq, hx]
    simp [he]
  · intro hacc
    rw [evaluateMultipleAnswers_eq]
    rcases hE : extractJsonSafe
        ((makeApiRequestWithRetry (beh (createMultipleAnswersEvaluationPrompt qas c)) jit).1.text)
      with _ | b | ⟨m, e⟩ | _ | _ | _ | s | el | kvs
    case obj =>
      rw [hE] at hacc
      simp only [acceptedResult] at hacc
      have ht : truthyOpt (jGet kvs "error") = true := by
        revert hacc
        cases truthyOpt (jGet kvs "error") <;> simp
      simp [ht]
    all_goals rfl

/-- Witness for C2 at a concrete behaviour returning a valid mapping. -/
theorem C2_accept_condition_witness :
    evaluateSingleAnswer (fun _ _ => Outcome.ok "\x7b\"score\": 1\x7d") (fun _ => 0)
      "Q" "A" "" = Json.obj [("score", Json.num 1 0)]
    ∧ evaluateMultipleAnswers (fun _ _ => Outcome.ok "not a json text") (fun _ => 0)
      [] "" = getFallbackComprehensiveEvaluation :=
  ⟨(C2_accept_condition (fun _ _ => Outcome.ok "\x7b\"score\": 1\x7d") (fun _ => 0)
      "Q" "A" "" []).1 [("score", Json.num 1 0)] rfl rfl,
   ((C2_accept_condition (fun _ _ => Outcome.ok "not a json text") (fun _ => 0)
      "Q" "A" "" []).2.2.2) rfl⟩

/-- Counterexample for C2 as stated: the service returns the valid JSON
`{"foo": 1}`, which does not validate against the Evaluation Result shape
(no overall score, no sub-scores, no feedback), yet
`evaluate_single_answer` returns it unchanged instead of the fallback. -/
theorem C2_counterexample :
    evaluateSingleAnswer (fun _ _ => Outcome.ok "\x7b\"foo\": 1\x7d") (fun _ => 0)
      "Q" "A" "" = Json.obj [("foo", Json.num 1 0)]
    ∧ specEvaluationResultShape (Json.obj [("foo", Json.num 1 0)]) = false := ⟨rfl, rfl⟩

/-- Claim C9: when the first service attempt returns text whose extracted
JSON is a mapping without a truthy `error` entry, `evaluate_single_answer`
returns that mapping exactly as parsed — in particular the
`overall_score` value is passed through unmodified; nothing is recomputed
from the sub-scores, clamped to a maximum, or checked for summing to the
overall score.  The witness exercises a payload whose five sub-scores sum
to 70 while `overall_score` is 55 and `clarity` is 35 out of 20; both
survive untouched. -/
theorem C9_score_passthrough (beh : String → Nat → Outcome) (jit : Nat → ℚ)
    (q a c t : String) (kvs : List (String × Json))
    (h0 : beh (createAnswerEvaluationPrompt q a c) 0 = Outcome.ok t)
    (hx : extractJsonSafe t = Json.obj kvs)
    (he : truthyOpt (jGet kvs "error") = false) :
    evaluateSingleAnswer beh jit q a c = Json.obj kvs := by
  rw [evaluateSingleAnswer_eq, retrySuccess0 _ _ _ h0]
  show (match extractJsonSafe t with
        | Json.obj kvs =>
          if truthyOpt (jGet kvs "error") then getFallbackEvaluation else Json.obj kvs
        | _ => getFallbackEvaluation) = Json.obj kvs
  rw [hx]
  simp [he]

/-- Witness for C9: five sub-scores summing to 70 with `overall_score` 55
and `clarity` 35/20; the mapping is returned exactly as the provider sent
it — `overall_score` stays 55 (not recomputed to the sub-score sum 70)
and `clarity` stays 35 (not clamped to 20). -/
theorem C9_score_passthrough_witness :
    evaluateSingleAnswer
      (fun _ _ => Outcome.ok
        "\x7b\"overall_score\": 55, \"detailed_scores\": \x7b\"clarity\": 35, \"completeness\": 20, \"accuracy\": 5, \"relevance\": 5, \"communication\": 5\x7d\x7d")
      (fun _ => 0) "Q" "A" ""
      = Json.obj
          [ ("overall_score", Json.num 55 0)
          , ("detailed_scores", Json.obj
              [ ("clarity", Json.num 35 0)
              , ("completeness", Json.num 20 0)
              , ("accuracy", Json.num 5 0)
              , ("relevance", Json.num 5 0)
              , ("communication", Json.num 5 0) ]) ]
    ∧ (35 + 20 + 5 + 5 + 5 = 70 ∧ (55 : Int) ≠ 70 ∧ ¬(35 : Int) ≤ 20) :=
  ⟨C9_score_passthrough
      (fun _ _ => Outcome.ok
        "\x7b\"overall_score\": 55, \"detailed_scores\": \x7b\"clarity\": 35, \"completeness\": 20, \"accuracy\": 5, \"relevance\": 5, \"communication\": 5\x7d\x7d")
      (fun _ => 0) "Q" "A" ""
      "\x7b\"overall_score\": 55, \"detailed_scores\": \x7b\"clarity\": 35, \"completeness\": 20, \"accuracy\": 5, \"relevance\": 5, \"communication\": 5\x7d\x7d"
      _ rfl rfl rfl,
   by norm_num⟩

/-- Claim C8 (amended): for every input and every service behaviour the
three evaluation/comparison operations return a mapping, but
`generate_questions` returns a plain JSON **string** (every branch of its
source ends in `json.dumps(...)`), so the claim's "all four return
mappings" fails for it — see the counterexample.  The caller in `app.py`
compensates by parsing the string (`json.loads`) before use. -/
theorem C8_return_types (beh : String → Nat → Outcome) (jit : Nat → ℚ)
    (mp : Bool) (data : Json) (q a c : String) (qas : List (String × String))
    (q2 a1 a2 : String) (labels : String × String) :
    (∃ s, generateQuestions beh jit mp data = Json.str s)
    ∧ (∃ kvs, evaluateSingleAnswer beh jit q a c = Json.obj kvs)
    ∧ (∃ kvs, evaluateMultipleAnswers beh jit qas c = Json.obj kvs)
    ∧ (∃ kvs, compareAnswers beh jit q2 a1 a2 labels = Json.obj kvs) := by
  refine ⟨?_, ?_, ?_, ?_⟩
  · cases mp
    · exact ⟨_, rfl⟩
    · rw [generateQuestions_eq]
      rcases extractJsonSafe
          ((makeApiRequestWithRetry (beh (createQuestionGenerationPrompt data)) jit).1.text)
        with _ | b | ⟨m, e⟩ | _ | _ | _ | s | el | kvs
      case obj =>
        by_cases h1 : truthyOpt (jGet kvs "error") <;>
          by_cases h2 : questionKeys.any (fun k => hasKey kvs k) <;>
          simp [h1, h2]
      all_goals exact ⟨_, rfl⟩
  · rw [evaluateSingleAnswer_eq]
    rcases extractJsonSafe
        ((makeApiRequestWithRetry (beh (createAnswerEvaluationPrompt q a c)) jit).1.text)
      with _ | b | ⟨m, e⟩ | _ | _ | _ | s | el | kvs
    case obj =>
      by_cases h1 : truthyOpt (jGet kvs "error") <;> simp [h1, getFallbackEvaluation]
    all_goals exact ⟨_, rfl⟩
  · rw [evaluateMultipleAnswers_eq]
    rcases extractJsonSafe
        ((makeApiRequestWithRetry (beh (createMultipleAnswersEvaluationPrompt qas c)) jit).1.text)
      with _ | b | ⟨m, e⟩ | _ | _ | _ | s | el | kvs
    case obj =>
      by_cases h1 : truthyOpt (jGet kvs "error") <;>
        simp [h1, getFallbackComprehensiveEvaluation]
    all_goals exact ⟨_, rfl⟩
  · rw [compareAnswers_eq]
    rcases extractJsonSafe
        ((makeApiRequestWithRetry (beh (createComparePrompt q2 a1 a2 labels)) jit).1.text)
      with _ | b | ⟨m, e⟩ | _ | _ | _ | s | el | kvs
    case obj =>
      by_cases h1 : truthyOpt (jGet kvs "error") <;> simp [h1]
    all_goals exact ⟨_, rfl⟩

/-- Counterexample for C8 as stated: with the model absent
`generate_questions` returns a plain string (the serialised fallback
questions), which is not a mapping. -/
theorem C8_counterexample :
    generateQuestions (fun _ _ => Outcome.err "down") (fun _ => 0) false Json.null
      = Json.str (pyJsonDumps getFallbackQuestions)
    ∧ ∀ kvs, Json.str (pyJsonDumps getFallbackQuestions) ≠ Json.obj kvs :=
  ⟨rfl, fun _ h => Json.noConfusion h⟩

/-- Claim C3 (amended): only the missing-credential case is fatal at
startup.  An unset (or empty, hence falsy) `GOOGLE_API_KEY` makes
`__init__` raise `ValueError` immediately with an operator-visible
message.  The no-available-model case does *not* raise to the caller: the
`ValueError` is raised inside the same `try` whose own broad `except`
catches it, logs, and sets `self.model = None`, so initialisation
completes and the failure is deferred to later calls. -/
theorem C3_config_errors (lm : Except String (List String)) (key : String)
    (avail : List String) :
    agentInit none lm = Except.error "GOOGLE_API_KEY not found in environment variables"
    ∧ agentInit (some "") lm
        = Except.error "GOOGLE_API_KEY not found in environment variables"
    ∧ (¬key = "" → (∀ m ∈ preferredModels, m ∉ avail) →
        agentInit (some key) (Except.ok avail) = Except.ok { model := none }) := by
  refine ⟨rfl, rfl, fun hk hnone => ?_⟩
  unfold agentInit
  simp [String.isEmpty_iff, hk]
  rw [List.find?_eq_none.mpr (fun m hm => by simpa using hnone m hm)]

/-- Witness for C3: a non-empty key with an empty available-model list
completes initialisation with no model instead of raising. -/
theorem C3_config_errors_witness :
    agentInit none (Except.ok [])
      = Except.error "GOOGLE_API_KEY not found in environment variables"
    ∧ agentInit (some "") (Except.ok [])
      = Except.error "GOOGLE_API_KEY not found in environment variables"
    ∧ agentInit (some "sk-test") (Except.ok []) = Except.ok { model := none } :=
  ⟨(C3_config_errors (Except.ok []) "sk-test" []).1,
   (C3_config_errors (Except.ok []) "sk-test" []).2.1,
   (C3_config_errors (Except.ok []) "sk-test" []).2.2 (by decide) (by simp)⟩

/-- Counterexample for C3 as stated: with a credential present but no
preferred model available, `__init__` returns normally (model `None`)
instead of raising an error — the raised `ValueError` is swallowed by the
initializer's own exception handler. -/
theorem C3_counterexample :
    agentInit (some "api-key") (Except.ok ["models/gemini-pro-vision"])
      = Except.ok { model := none }
    ∧ ∀ e, agentInit (some "api-key") (Except.ok ["models/gemini-pro-vision"])
        ≠ Except.error e := by
  refine ⟨rfl, fun e h => ?_⟩
  rw [show agentInit (some "api-key") (Except.ok ["models/gemini-pro-vision"])
      = Except.ok { model := none } from rfl] at h
  exact Except.noConfusion h

/-- Claim C6: in the non-rate-limit path, across every behaviour of the
service and every jitter draw in `[0, 1)`: no delay precedes the first
attempt; the trace is one of the three shapes call/backoff-call/backoff-
call (so the service is invoked at most 3 times); and the backoff before
retry attempt `i ≥ 1` is `2^i` plus the drawn jitter, which lies in the
half-open interval `[2^i, 2^i + 1)`. -/
theorem C6_backoff_bounds (svc : Nat → Outcome) (jit : Nat → ℚ)
    (hnr : ∀ k m, svc k = Outcome.err m → isRateLimitMsg m = false)
    (hjit : ∀ i, 0 ≤ jit i ∧ jit i < 1) :
    ((makeApiRequestWithRetry svc jit).2 = [Ev.call 0]
     ∨ (makeApiRequestWithRetry svc jit).2 =
         [Ev.call 0, Ev.sleep ((2 : ℚ) ^ 1 + jit 1), Ev.call 1]
     ∨ (makeApiRequestWithRetry svc jit).2 =
         [Ev.call 0, Ev.sleep ((2 : ℚ) ^ 1 + jit 1), Ev.call 1,
          Ev.sleep ((2 : ℚ) ^ 2 + jit 2), Ev.call 2])
    ∧ (makeApiRequestWithRetry svc jit).2.head? = some (Ev.call 0)
    ∧ countCalls (makeApiRequestWithRetry svc jit).2 ≤ 3
    ∧ ∀ i, 1 ≤ i →
        (2 : ℚ) ^ i ≤ (2 : ℚ) ^ i + jit i ∧ (2 : ℚ) ^ i + jit i < (2 : ℚ) ^ i + 1 := by
  have htr := retryTraceNoRateLimit svc jit hnr
  refine ⟨htr, ?_, ?_, ?_⟩
  · rcases htr with h | h | h <;> rw [h] <;> rfl
  · rcases htr with h | h | h <;> rw [h] <;> simp [countCalls]
  · intro i hi
    exact ⟨le_add_of_nonneg_right (hjit i).1, by linarith [(hjit i).2]⟩

/-- Witness for C6 at an always-failing non-rate-limit behaviour with zero
jitter. -/
theorem C6_backoff_bounds_witness :
    ((makeApiRequestWithRetry (fun _ => Outcome.err "503 service unavailable")
        (fun _ => 0)).2 = [Ev.call 0]
     ∨ (makeApiRequestWithRetry (fun _ => Outcome.err "503 service unavailable")
        (fun _ => 0)).2 =
         [Ev.call 0, Ev.sleep ((2 : ℚ) ^ 1 + 0), Ev.call 1]
     ∨ (makeApiRequestWithRetry (fun _ => Outcome.err "503 service unavailable")
        (fun _ => 0)).2 =
         [Ev.call 0, Ev.sleep ((2 : ℚ) ^ 1 + 0), Ev.call 1,
          Ev.sleep ((2 : ℚ) ^ 2 + 0), Ev.call 2])
    ∧ (makeApiRequestWithRetry (fun _ => Outcome.err "503 service unavailable")
        (fun _ => 0)).2.head? = some (Ev.call 0)
    ∧ countCalls (makeApiRequestWithRetry (fun _ => Outcome.err "503 service unavailable")
        (fun _ => 0)).2 ≤ 3
    ∧ ∀ i : Nat, 1 ≤ i →
        (2 : ℚ) ^ i ≤ (2 : ℚ) ^ i + 0 ∧ (2 : ℚ) ^ i + 0 < (2 : ℚ) ^ i + 1 :=
  C6_backoff_bounds (fun _ => Outcome.err "503 service unavailable") (fun _ => 0)
    (fun _ m h => by cases h; rfl)
    (fun _ => by norm_num)

/-- Claim C7: a malformed response is never retried.  If the service
raises on the attempts before `k` and returns text `t` on attempt
`k < 3`, the wrapper returns that response at once — exactly `k + 1`
invocations happen, none with an index beyond `k` — and when the
extraction of `t` yields the error sentinel, `evaluate_single_answer`
immediately degrades to its fallback evaluation for that call, with no
further service use. -/
theorem C7_malformed_not_retried (beh : String → Nat → Outcome) (jit : Nat → ℚ)
    (q a c : String) (k : Nat) (t : String) (hk : k < 3)
    (hs : beh (createAnswerEvaluationPrompt q a c) k = Outcome.ok t)
    (hprev : ∀ j, j < k → ∃ m, beh (createAnswerEvaluationPrompt q a c) j = Outcome.err m)
    (hbad : extractJsonSafe t = invalidJsonSentinel) :
    (makeApiRequestWithRetry (beh (createAnswerEvaluationPrompt q a c)) jit).1
      = { text := t }
    ∧ countCalls (makeApiRequestWithRetry (beh (createAnswerEvaluationPrompt q a c)) jit).2
      = k + 1
    ∧ (∀ i, Ev.call i ∈ (makeApiRequestWithRetry (beh (createAnswerEvaluationPrompt q a c)) jit).2
        → i ≤ k)
    ∧ evaluateSingleAnswer beh jit q a c = getFallbackEvaluation := by
  obtain ⟨h1, h2, h3⟩ := retryFirstSuccess _ jit k t hk hs hprev
  refine ⟨h1, h2, h3, ?_⟩
  rw [evaluateSingleAnswer_eq, h1]
  show (match extractJsonSafe t with
        | Json.obj kvs =>
          if truthyOpt (jGet kvs "error") then getFallbackEvaluation else Json.obj kvs
        | _ => getFallbackEvaluation) = getFallbackEvaluation
  rw [hbad]
  rfl

/-- Witness for C7: failure on attempt 0, unparseable text on attempt 1. -/
theorem C7_malformed_not_retried_witness :
    (makeApiRequestWithRetry
        ((fun _ j => if j = 1 then Outcome.ok "** not json **" else Outcome.err "boom")
          (createAnswerEvaluationPrompt "Q" "A" "")) (fun _ => 0)).1
      = { text := "** not json **" }
    ∧ countCalls (makeApiRequestWithRetry
        ((fun _ j => if j = 1 then Outcome.ok "** not json **" else Outcome.err "boom")
          (createAnswerEvaluationPrompt "Q" "A" "")) (fun _ => 0)).2 = 1 + 1
    ∧ (∀ i, Ev.call i ∈ (makeApiRequestWithRetry
        ((fun _ j => if j = 1 then Outcome.ok "** not json **" else Outcome.err "boom")
          (createAnswerEvaluationPrompt "Q" "A" "")) (fun _ => 0)).2 → i ≤ 1)
    ∧ evaluateSingleAnswer
        (fun _ j => if j = 1 then Outcome.ok "** not json **" else Outcome.err "boom")
        (fun _ => 0) "Q" "A" "" = getFallbackEvaluation :=
  C7_malformed_not_retried
    (fun _ j => if j = 1 then Outcome.ok "** not json **" else Outcome.err "boom")
    (fun _ => 0) "Q" "A" "" 1 "** not json **" (by omega) rfl
    (fun j hj => ⟨"boom", by interval_cases j; rfl⟩) rfl

/-- Claim C10: for every service behaviour and jitter draw,
`_make_api_request_with_retry` returns a value whose string `text`
attribute is either the text of a successful attempt or the synthesized
fallback text — and that fallback text is itself the JSON serialisation
of a full evaluation payload (so it always parses).  Totality of the
model (it returns a `Response` on every input) is the embedding of "never
raises and never returns `None`"; this covers the absent-model case,
whose `AttributeError` on every attempt is one particular all-error
behaviour. -/
theorem C10_always_response (svc : Nat → Outcome) (jit : Nat → ℚ) :
    ((∃ k, k < 3 ∧ svc k = Outcome.ok ((makeApiRequestWithRetry svc jit).1.text))
     ∨ (makeApiRequestWithRetry svc jit).1.text = pyJsonDumps fallbackResponsePayload)
    ∧ jsonLoads (pyJsonDumps fallbackResponsePayload).data
      = Except.ok fallbackResponsePayload := by
  refine ⟨?_, rfl⟩
  rcases e0 : svc 0 with t0 | m0
  · left
    exact ⟨0, by omega, by simp [makeApiRequestWithRetry, retryAux, e0]⟩
  · rcases e1 : svc 1 with t1 | m1
    · left
      refine ⟨1, by omega, ?_⟩
      by_cases r0 : isRateLimitMsg m0 <;>
        simp [makeApiRequestWithRetry, retryAux, e0, e1, r0]
    · rcases e2 : svc 2 with t2 | m2
      · left
        refine ⟨2, by omega, ?_⟩
        by_cases r0 : isRateLimitMsg m0 <;> by_cases r1 : isRateLimitMsg m1 <;>
          simp [makeApiRequestWithRetry, retryAux, e0, e1, e2, r0, r1]
      · right
        have := retryResultAllErr svc jit (fun k hk => by
          interval_cases k
          · exact ⟨m0, e0⟩
          · exact ⟨m1, e1⟩
          · exact ⟨m2, e2⟩)
        rw [this]
        rfl
